import Mathlib

/-!
Shallow embedding of the VoiceNoteRecorder component
(src/src/components/VoiceNoteRecorder.tsx).

The component is a small event-driven state machine: a transcript buffer, a
note category, transient flags, and a two-step persistence routine.  We embed
the component state, the recognition-adapter state (its internals are not in
the provided sources; they are modelled from the spec where needed), and each
event handler as a pure state transformer.  The two remote inserts of
saveNote are modelled by outcome parameters (success or failure of each
insert) and an explicit effect log recording the issued writes, the user
alerts, the callback invocations and the scheduled success timer.
-/

/-- Note categories, exactly the five variants of the noteType union type. -/
inductive NoteType
  | general
  | symptoms
  | diagnosis
  | prescription
  | follow_up
  deriving DecidableEq, Repr

/-- A created Consultation Note record as returned by the remote store
(identity assigned remotely; the component treats it as opaque data). -/
structure CreatedNote where
  id : Nat
  deriving DecidableEq, Repr

/-- Component props: consultationId, doctorId, and whether the optional
onNoteSaved callback was supplied. -/
structure Props where
  consultationId : String
  doctorId : String
  hasOnNoteSaved : Bool
  deriving DecidableEq, Repr

/-- State owned by the component: currentTranscript (the Transcript Buffer),
savedNotes (the recent-saves list), saving, noteType and showSuccess. -/
structure ComponentState where
  currentTranscript : String
  savedNotes : List CreatedNote
  saving : Bool
  noteType : NoteType
  showSuccess : Bool
  deriving DecidableEq, Repr

/-- Adapter-visible state consumed by the component: listening flag and the
cumulative and interim transcripts. -/
structure AdapterState where
  isListening : Bool
  transcript : String
  interimTranscript : String
  deriving DecidableEq, Repr

/-- Embedding of the JavaScript String.prototype.trim used by the component:
whitespace removed from both ends of the string. -/
def jsTrim (s : String) : String :=
  String.mk (((s.data.dropWhile Char.isWhitespace).reverse.dropWhile
    Char.isWhitespace).reverse)

/-- The fixed confidence score 0.95 sent with both records. -/
def voiceConfidenceScore : ℚ := 95 / 100

/-- Fields of the consultation_notes insert issued by saveNote. -/
structure ConsultationNoteInsert where
  consultation_id : String
  doctor_id : String
  note_type : NoteType
  content : String
  is_voice_generated : Bool
  voice_confidence_score : ℚ
  deriving DecidableEq, Repr

/-- Fields of the voice_transcriptions insert issued by saveNote. -/
structure VoiceTranscriptionInsert where
  consultation_id : String
  doctor_id : String
  transcribed_text : String
  confidence_score : ℚ
  language_code : String
  processing_status : String
  deriving DecidableEq, Repr

/-- A persistence write issued to the remote store, tagged by collection. -/
inductive DbWrite
  | noteInsert (r : ConsultationNoteInsert)
  | transcriptionInsert (r : VoiceTranscriptionInsert)
  deriving DecidableEq, Repr

/-- Observable effects of one saveNote invocation: the issued writes in
order, the alert messages shown, the onNoteSaved invocations, and whether
the 3-second success timer was scheduled. -/
structure SaveEffects where
  writes : List DbWrite
  alerts : List String
  callbackCalls : List CreatedNote
  timerScheduled : Bool
  deriving DecidableEq, Repr

/-- Outcome of the Step 1 insert (consultation_notes): the created record on
success, or a failure (the returned error, thrown by the component). -/
inductive Step1Result
  | ok (note : CreatedNote)
  | fail
  deriving DecidableEq, Repr

/-- Outcome of the Step 2 insert (voice_transcriptions); the component
discards this result. -/
inductive Step2Result
  | ok
  | fail
  deriving DecidableEq, Repr

/-- Modelled from the spec: the adapter operation resetTranscript of the
useVoiceRecognition hook (src/hooks/useVoiceRecognition, not among the
provided sources) clears transcript and interimTranscript to empty and does
not affect the listening state. -/
def resetTranscript (a : AdapterState) : AdapterState :=
  { a with transcript := "", interimTranscript := "" }

/-- Modelled from the spec: the adapter operation startListening begins
continuous listening; idempotent if already listening. -/
def startListening (a : AdapterState) : AdapterState :=
  { a with isListening := true }

/-- Modelled from the spec: the adapter operation stopListening ends
listening; idempotent if not listening. -/
def stopListening (a : AdapterState) : AdapterState :=
  { a with isListening := false }

/-- The alert shown when saving an empty or whitespace-only buffer. -/
def emptyContentAlert : String := "Please record some content before saving."

/-- The alert shown when the Step 1 insert fails. -/
def persistenceAlert : String := "Failed to save note. Please try again."

/-- The useEffect keyed on the adapter transcript: if (transcript) is truthy
(non-empty), setCurrentTranscript(transcript); otherwise nothing happens. -/
def onTranscriptChanged (s : ComponentState) (t : String) : ComponentState :=
  if t = "" then s else { s with currentTranscript := t }

/-- The saveNote handler.  Empty trimmed buffer: alert and return with no
writes.  Otherwise: issue the consultation_notes insert; if it fails, throw
into the catch (persistence alert, no further writes, finally saving=false);
if it succeeds, issue the voice_transcriptions insert (result discarded),
prepend the created note, clear the buffer, reset the adapter, invoke the
callback if supplied, set showSuccess and schedule the 3-second timer, and
finally saving=false. -/
def saveNote (p : Props) (s : ComponentState) (a : AdapterState)
    (r1 : Step1Result) (_r2 : Step2Result) :
    ComponentState × AdapterState × SaveEffects :=
  if jsTrim s.currentTranscript = "" then
    (s, a,
      { writes := [], alerts := [emptyContentAlert], callbackCalls := [],
        timerScheduled := false })
  else
    let content := jsTrim s.currentTranscript
    let noteRec : ConsultationNoteInsert :=
      { consultation_id := p.consultationId, doctor_id := p.doctorId,
        note_type := s.noteType, content := content,
        is_voice_generated := true,
        voice_confidence_score := voiceConfidenceScore }
    match r1 with
    | Step1Result.fail =>
        ({ s with saving := false }, a,
          { writes := [DbWrite.noteInsert noteRec],
            alerts := [persistenceAlert], callbackCalls := [],
            timerScheduled := false })
    | Step1Result.ok note =>
        let logRec : VoiceTranscriptionInsert :=
          { consultation_id := p.consultationId, doctor_id := p.doctorId,
            transcribed_text := content,
            confidence_score := voiceConfidenceScore,
            language_code := "en-US", processing_status := "completed" }
        ({ s with savedNotes := note :: s.savedNotes,
                  currentTranscript := "", showSuccess := true,
                  saving := false },
          resetTranscript a,
          { writes := [DbWrite.noteInsert noteRec,
                       DbWrite.transcriptionInsert logRec],
            alerts := [],
            callbackCalls := if p.hasOnNoteSaved then [note] else [],
            timerScheduled := true })

/-- The deferred setTimeout action scheduled on success: after 3000 ms it
clears the success banner. -/
def successTimerFire (s : ComponentState) : ComponentState :=
  { s with showSuccess := false }

/-- The clearTranscript handler: empties the buffer and resets the adapter. -/
def clearTranscript (s : ComponentState) (a : AdapterState) :
    ComponentState × AdapterState :=
  ({ s with currentTranscript := "" }, resetTranscript a)

/-- The handleToggleRecording handler: stop if listening, start otherwise. -/
def handleToggleRecording (a : AdapterState) : AdapterState :=
  if a.isListening then stopListening a else startListening a

/-- The quick action labelled + Diagnosis: appends the literal snippet and
sets the category to diagnosis. -/
def quickActionDiagnosis (s : ComponentState) : ComponentState :=
  { s with currentTranscript := s.currentTranscript ++ " Diagnosis: ",
           noteType := NoteType.diagnosis }

/-- Example props used by the witness theorems. -/
def exProps : Props :=
  { consultationId := "consult-1", doctorId := "doc-1", hasOnNoteSaved := true }

/-- Example component state with a non-empty buffer, used by witnesses. -/
def exState : ComponentState :=
  { currentTranscript := " hello world ", savedNotes := [], saving := false,
    noteType := NoteType.general, showSuccess := false }

/-- Example adapter state used by the witness theorems. -/
def exAdapter : AdapterState :=
  { isListening := false, transcript := " hello world ",
    interimTranscript := "partial" }

/-- Example created note used by the witness theorems. -/
def exNote : CreatedNote := { id := 7 }

/-- Example component state with a whitespace-only buffer, used by the
empty-save witness. -/
def exEmptyState : ComponentState :=
  { currentTranscript := "   ", savedNotes := [exNote], saving := false,
    noteType := NoteType.symptoms, showSuccess := false }

/-- Claim C1: for every buffer whose trimmed content is non-empty, saveNote
(with Step 1 returning the created note, and regardless of the Step 2
outcome) issues exactly one Consultation Note insert carrying the
consultation id, author id, selected category, trimmed content,
voice-origin flag true and confidence 0.95, followed by exactly one
Transcription Log insert with the same ids, the same trimmed content, the
same confidence, language code en-US and status completed, in that order. -/
theorem save_issues_note_then_log (p : Props) (s : ComponentState)
    (a : AdapterState) (note : CreatedNote) (r2 : Step2Result)
    (h : jsTrim s.currentTranscript ≠ "") :
    (saveNote p s a (Step1Result.ok note) r2).2.2.writes =
      [DbWrite.noteInsert
        { consultation_id := p.consultationId, doctor_id := p.doctorId,
          note_type := s.noteType, content := jsTrim s.currentTranscript,
          is_voice_generated := true,
          voice_confidence_score := voiceConfidenceScore },
       DbWrite.transcriptionInsert
        { consultation_id := p.consultationId, doctor_id := p.doctorId,
          transcribed_text := jsTrim s.currentTranscript,
          confidence_score := voiceConfidenceScore,
          language_code := "en-US", processing_status := "completed" }] := by
  simp [saveNote, h]

/-- Witness for save_issues_note_then_log at concrete inputs. -/
theorem save_issues_note_then_log_witness :
    (saveNote exProps exState exAdapter (Step1Result.ok exNote)
        Step2Result.ok).2.2.writes =
      [DbWrite.noteInsert
        { consultation_id := exProps.consultationId,
          doctor_id := exProps.doctorId, note_type := exState.noteType,
          content := jsTrim exState.currentTranscript,
          is_voice_generated := true,
          voice_confidence_score := voiceConfidenceScore },
       DbWrite.transcriptionInsert
        { consultation_id := exProps.consultationId,
          doctor_id := exProps.doctorId,
          transcribed_text := jsTrim exState.currentTranscript,
          confidence_score := voiceConfidenceScore,
          language_code := "en-US", processing_status := "completed" }] :=
  save_issues_note_then_log exProps exState exAdapter exNote Step2Result.ok
    (by decide)

/-- Claim C2 counterexample: with prior buffer abc, an empty adapter
snapshot does not replace the buffer; the buffer afterwards is still abc,
not the empty string the claim requires. -/
theorem transcript_overwrite_empty_cex :
    ¬ ((onTranscriptChanged
        { currentTranscript := "abc", savedNotes := [], saving := false,
          noteType := NoteType.general, showSuccess := false }
        "").currentTranscript = "") := by
  decide

/-- Claim C2 (amended): when the adapter transcript changes to snapshot S,
the buffer afterwards equals S exactly (discarding prior manual edits) if S
is non-empty, and is left unchanged if S is the empty string. -/
theorem transcript_overwrite_policy (s : ComponentState) (t : String) :
    (onTranscriptChanged s t).currentTranscript =
      (if t = "" then s.currentTranscript else t) := by
  by_cases h : t = "" <;> simp [onTranscriptChanged, h]

/-- Claim C3: when Step 1 succeeds and Step 2 fails, no alert is shown and
the whole result (component state, adapter state, effects) is identical to
that of a fully successful save: Step 1 is not rolled back and the Step 2
failure is not surfaced. -/
theorem step2_failure_swallowed (p : Props) (s : ComponentState)
    (a : AdapterState) (note : CreatedNote)
    (h : jsTrim s.currentTranscript ≠ "") :
    saveNote p s a (Step1Result.ok note) Step2Result.fail =
      saveNote p s a (Step1Result.ok note) Step2Result.ok ∧
    (saveNote p s a (Step1Result.ok note) Step2Result.fail).2.2.alerts
      = [] := by
  exact ⟨rfl, by simp [saveNote, h]⟩

/-- Witness for step2_failure_swallowed at concrete inputs. -/
theorem step2_failure_swallowed_witness :
    (saveNote exProps exState exAdapter (Step1Result.ok exNote)
        Step2Result.fail =
      saveNote exProps exState exAdapter (Step1Result.ok exNote)
        Step2Result.ok) ∧
    (saveNote exProps exState exAdapter (Step1Result.ok exNote)
        Step2Result.fail).2.2.alerts = [] :=
  step2_failure_swallowed exProps exState exAdapter exNote (by decide)

/-- Claim C4: when Step 1 fails, the operation is aborted: the persistence
alert is surfaced, the buffer is unchanged, only the Consultation Note
insert was issued (no Transcription Log insert), the recent-saves list is
unchanged, the success flag is untouched and no success timer is scheduled,
no callback is invoked, the adapter is untouched, and saving is false
afterwards. -/
theorem step1_failure_aborts (p : Props) (s : ComponentState)
    (a : AdapterState) (r2 : Step2Result)
    (h : jsTrim s.currentTranscript ≠ "") :
    (saveNote p s a Step1Result.fail r2).2.2.alerts = [persistenceAlert] ∧
    (saveNote p s a Step1Result.fail r2).1.currentTranscript
      = s.currentTranscript ∧
    (saveNote p s a Step1Result.fail r2).2.2.writes =
      [DbWrite.noteInsert
        { consultation_id := p.consultationId, doctor_id := p.doctorId,
          note_type := s.noteType, content := jsTrim s.currentTranscript,
          is_voice_generated := true,
          voice_confidence_score := voiceConfidenceScore }] ∧
    (saveNote p s a Step1Result.fail r2).1.savedNotes = s.savedNotes ∧
    (saveNote p s a Step1Result.fail r2).1.showSuccess = s.showSuccess ∧
    (saveNote p s a Step1Result.fail r2).2.2.timerScheduled = false ∧
    (saveNote p s a Step1Result.fail r2).2.2.callbackCalls = [] ∧
    (saveNote p s a Step1Result.fail r2).2.1 = a ∧
    (saveNote p s a Step1Result.fail r2).1.saving = false := by
  simp [saveNote, h]

/-- Witness for step1_failure_aborts at concrete inputs. -/
theorem step1_failure_aborts_witness :
    (saveNote exProps exState exAdapter Step1Result.fail
        Step2Result.ok).2.2.alerts = [persistenceAlert] ∧
    (saveNote exProps exState exAdapter Step1Result.fail
        Step2Result.ok).1.currentTranscript = exState.currentTranscript ∧
    (saveNote exProps exState exAdapter Step1Result.fail
        Step2Result.ok).2.2.writes =
      [DbWrite.noteInsert
        { consultation_id := exProps.consultationId,
          doctor_id := exProps.doctorId, note_type := exState.noteType,
          content := jsTrim exState.currentTranscript,
          is_voice_generated := true,
          voice_confidence_score := voiceConfidenceScore }] ∧
    (saveNote exProps exState exAdapter Step1Result.fail
        Step2Result.ok).1.savedNotes = exState.savedNotes ∧
    (saveNote exProps exState exAdapter Step1Result.fail
        Step2Result.ok).1.showSuccess = exState.showSuccess ∧
    (saveNote exProps exState exAdapter Step1Result.fail
        Step2Result.ok).2.2.timerScheduled = false ∧
    (saveNote exProps exState exAdapter Step1Result.fail
        Step2Result.ok).2.2.callbackCalls = [] ∧
    (saveNote exProps exState exAdapter Step1Result.fail
        Step2Result.ok).2.1 = exAdapter ∧
    (saveNote exProps exState exAdapter Step1Result.fail
        Step2Result.ok).1.saving = false :=
  step1_failure_aborts exProps exState exAdapter Step2Result.ok (by decide)

/-- Claim C5: on an empty or whitespace-only buffer, saveNote issues zero
writes, invokes no callback, schedules no timer, and leaves the component
state and adapter state entirely unchanged apart from showing the blocking
notice. -/
theorem save_empty_noop (p : Props) (s : ComponentState) (a : AdapterState)
    (r1 : Step1Result) (r2 : Step2Result)
    (h : jsTrim s.currentTranscript = "") :
    saveNote p s a r1 r2 =
      (s, a,
        { writes := [], alerts := [emptyContentAlert], callbackCalls := [],
          timerScheduled := false }) := by
  simp [saveNote, h]

/-- Witness for save_empty_noop at a whitespace-only buffer. -/
theorem save_empty_noop_witness :
    saveNote exProps exEmptyState exAdapter Step1Result.fail Step2Result.ok =
      (exEmptyState, exAdapter,
        { writes := [], alerts := [emptyContentAlert], callbackCalls := [],
          timerScheduled := false }) :=
  save_empty_noop exProps exEmptyState exAdapter Step1Result.fail
    Step2Result.ok (by decide)

/-- Claim C6: after a fully successful save (regardless of the Step 2
outcome, which is discarded), the created note is prepended to the
recent-saves list, the buffer is empty, the adapter has been reset so its
transcript and interim transcript are empty, the callback receives the
created note exactly when supplied, showSuccess is true with the 3-second
timer scheduled and firing that timer clears it, and saving is false. -/
theorem save_success_completion (p : Props) (s : ComponentState)
    (a : AdapterState) (note : CreatedNote) (r2 : Step2Result)
    (h : jsTrim s.currentTranscript ≠ "") :
    (saveNote p s a (Step1Result.ok note) r2).1.savedNotes
      = note :: s.savedNotes ∧
    (saveNote p s a (Step1Result.ok note) r2).1.currentTranscript = "" ∧
    (saveNote p s a (Step1Result.ok note) r2).2.1 = resetTranscript a ∧
    (saveNote p s a (Step1Result.ok note) r2).2.1.transcript = "" ∧
    (saveNote p s a (Step1Result.ok note) r2).2.1.interimTranscript = "" ∧
    (saveNote p s a (Step1Result.ok note) r2).2.2.callbackCalls
      = (if p.hasOnNoteSaved then [note] else []) ∧
    (saveNote p s a (Step1Result.ok note) r2).1.showSuccess = true ∧
    (saveNote p s a (Step1Result.ok note) r2).2.2.timerScheduled = true ∧
    (successTimerFire
        (saveNote p s a (Step1Result.ok note) r2).1).showSuccess = false ∧
    (saveNote p s a (Step1Result.ok note) r2).1.saving = false := by
  simp [saveNote, successTimerFire, resetTranscript, h]

/-- Witness for save_success_completion at concrete inputs. -/
theorem save_success_completion_witness :
    (saveNote exProps exState exAdapter (Step1Result.ok exNote)
        Step2Result.ok).1.savedNotes = exNote :: exState.savedNotes ∧
    (saveNote exProps exState exAdapter (Step1Result.ok exNote)
        Step2Result.ok).1.currentTranscript = "" ∧
    (saveNote exProps exState exAdapter (Step1Result.ok exNote)
        Step2Result.ok).2.1 = resetTranscript exAdapter ∧
    (saveNote exProps exState exAdapter (Step1Result.ok exNote)
        Step2Result.ok).2.1.transcript = "" ∧
    (saveNote exProps exState exAdapter (Step1Result.ok exNote)
        Step2Result.ok).2.1.interimTranscript = "" ∧
    (saveNote exProps exState exAdapter (Step1Result.ok exNote)
        Step2Result.ok).2.2.callbackCalls
      = (if exProps.hasOnNoteSaved then [exNote] else []) ∧
    (saveNote exProps exState exAdapter (Step1Result.ok exNote)
        Step2Result.ok).1.showSuccess = true ∧
    (saveNote exProps exState exAdapter (Step1Result.ok exNote)
        Step2Result.ok).2.2.timerScheduled = true ∧
    (successTimerFire
        (saveNote exProps exState exAdapter (Step1Result.ok exNote)
          Step2Result.ok).1).showSuccess = false ∧
    (saveNote exProps exState exAdapter (Step1Result.ok exNote)
        Step2Result.ok).1.saving = false :=
  save_success_completion exProps exState exAdapter exNote Step2Result.ok
    (by decide)

/-- Claim C7: from the buffer Patient reports headache with category
general, the + Diagnosis quick action yields the buffer Patient reports
headache Diagnosis: (with trailing space) and category diagnosis. -/
theorem quick_action_diagnosis_example :
    (quickActionDiagnosis
      { currentTranscript := "Patient reports headache", savedNotes := [],
        saving := false, noteType := NoteType.general,
        showSuccess := false }).currentTranscript
      = "Patient reports headache Diagnosis: " ∧
    (quickActionDiagnosis
      { currentTranscript := "Patient reports headache", savedNotes := [],
        saving := false, noteType := NoteType.general,
        showSuccess := false }).noteType = NoteType.diagnosis := by
  exact ⟨by decide, by decide⟩

/-- Claim C8: toggleRecording invokes the adapter stop operation when
listening and the start operation when not, so the listening flag afterwards
is the opposite of the one at invocation; the adapter operations are
idempotent, so repeating the operation while already in the target state is
a no-op. -/
theorem toggle_recording_flips (a : AdapterState) :
    (handleToggleRecording a).isListening = !a.isListening ∧
    (a.isListening = true → handleToggleRecording a = stopListening a) ∧
    (a.isListening = false → handleToggleRecording a = startListening a) ∧
    stopListening (stopListening a) = stopListening a ∧
    startListening (startListening a) = startListening a := by
  by_cases h : a.isListening = true <;>
    simp [handleToggleRecording, startListening, stopListening, h]

/-- Witness for toggle_recording_flips at a concrete adapter state. -/
theorem toggle_recording_flips_witness :
    (handleToggleRecording exAdapter).isListening
      = !exAdapter.isListening ∧
    (exAdapter.isListening = true →
      handleToggleRecording exAdapter = stopListening exAdapter) ∧
    (exAdapter.isListening = false →
      handleToggleRecording exAdapter = startListening exAdapter) ∧
    stopListening (stopListening exAdapter) = stopListening exAdapter ∧
    startListening (startListening exAdapter) = startListening exAdapter :=
  toggle_recording_flips exAdapter

/-- Claim C9: an empty adapter snapshot leaves the component state, in
particular the Transcript Buffer, unchanged: the wholesale-overwrite
reconciliation applies only to non-empty snapshots. -/
theorem empty_snapshot_preserves_buffer (s : ComponentState) :
    onTranscriptChanged s "" = s := by
  simp [onTranscriptChanged]

/-- Claim C10: clearTranscript empties the buffer and resets the adapter,
and changes nothing else: category, recent-saves list, saving flag and
success flag are all preserved. -/
theorem clear_transcript_frame (s : ComponentState) (a : AdapterState) :
    (clearTranscript s a).1.currentTranscript = "" ∧
    (clearTranscript s a).1.noteType = s.noteType ∧
    (clearTranscript s a).1.savedNotes = s.savedNotes ∧
    (clearTranscript s a).1.saving = s.saving ∧
    (clearTranscript s a).1.showSuccess = s.showSuccess ∧
    (clearTranscript s a).2 = resetTranscript a := by
  simp [clearTranscript]
